import Mathlib

/-!
Shallow embedding of the simulation control core of the terrainbento
repository (base class `ErosionModel` in
terrainbento/base_class/erosion_model.py, plus the runoff computation of
`BasicSt` in terrainbento/derived_models/model_100_basicSt.py), together
with theorems settling the behavioural claims about that code.

Python data is modelled explicitly: parameter dictionaries become
association lists over `String`, Python exceptions become an error type
threaded through `Except`, and Python floats become `ℚ` (exact real
bookkeeping of the time loop) or `ℝ` (for the runoff formula, which uses
the exponential function).
-/

set_option autoImplicit false

namespace Terrainbento

/-- Python exceptions that the modelled code can raise. -/
inductive PyErr where
  | valueError (msg : String)
  | typeError (msg : String)
  | keyError (key : String)
  | fileNotFoundError (name : String)
  | attributeError (msg : String)
  | systemExit
  deriving DecidableEq, Repr

/-- Values stored in the model's parameter dictionary `self.params`.
`num` is a value `float()` accepts (int, float or numeric string);
`str` is a non-numeric string, on which `float()` raises ValueError;
`dict` is a nested dictionary (handler-specific parameter blocks). -/
inductive PyVal where
  | num (q : ℚ)
  | str (s : String)
  | dict (entries : List (String × PyVal))

/-- Python dictionary read `d[k]` returning `none` when the key is absent. -/
def dictLookup {α : Type} : List (String × α) → String → Option α
  | [], _ => none
  | (k, v) :: rest, key => if k = key then some v else dictLookup rest key

/-- Python dictionary write `d[k] = v` (replaces an existing binding,
otherwise appends). -/
def dictInsert {α : Type} : List (String × α) → String → α → List (String × α)
  | [], k, v => [(k, v)]
  | (k0, v0) :: rest, k, v =>
    if k0 = k then (k, v) :: rest else (k0, v0) :: dictInsert rest k v

/-- Python `float(v)`: succeeds on numeric values, raises ValueError on a
non-numeric string and TypeError on a dictionary. -/
def pyFloat : PyVal → Except PyErr ℚ
  | .num q => .ok q
  | .str s => .error (.valueError ("could not convert string to float: " ++ s))
  | .dict _ => .error (.typeError "float() argument must be a string or a number")

/-! ## ErosionModel.run_for

The body of `ErosionModel.run_for(dt, runtime)` is the loop

  elapsed_time = 0.
  keep_running = True
  while keep_running:
      if elapsed_time+dt >= runtime:
          dt = runtime-elapsed_time
          keep_running = False
      self.run_one_step(dt)
      elapsed_time += dt

We embed it as the list of `dt` arguments passed to `run_one_step`, in
order.  The loop terminates only when `dt > 0`; `runForGo` carries a fuel
argument as termination bound, and `run_for_dts` supplies fuel that is
sufficient whenever `dt > 0` (one full step per unit of the ceiling of
`runtime / dt`, plus the final truncated step). -/

/-- One unrolling of the while loop of `ErosionModel.run_for`, with fuel. -/
def runForGo (dt runtime : ℚ) : ℕ → ℚ → List ℚ
  | 0, _ => []
  | fuel + 1, elapsed =>
    if runtime ≤ elapsed + dt then [runtime - elapsed]
    else dt :: runForGo dt runtime fuel (elapsed + dt)

/-- The sequence of timesteps `ErosionModel.run_for(dt, runtime)` passes to
`run_one_step`, in call order. -/
def run_for_dts (dt runtime : ℚ) : List ℚ :=
  runForGo dt runtime (⌈runtime / dt⌉₊ + 1) 0

/-! ## ErosionModel.run

The state the run loop manipulates: the simulation clock `_model_time`,
the number of `write_output` calls made so far, and the iteration counter
used to tag output files. -/

structure ModelState where
  model_time : ℚ
  outputs : ℕ
  iteration : ℕ

/-- Modelled from the spec: the model's single-step extension point
`run_one_step(dt)` is defined by concrete model classes (e.g. `Basic`),
whose sources are not part of this tree; per the spec's per-step data flow
(boundary advance, physical step, then `SimulationEngine.advance_time`) a
single step advances the clock by `dt`.  The in-tree test
`test_erosion_model_run.py` asserts exactly this
(`model.model_time == 100.` after `run_for(10., 100.)`).  The physical
field updates are irrelevant to the claims and are not tracked. -/
def run_one_step (s : ModelState) (dt : ℚ) : ModelState :=
  { s with model_time := s.model_time + dt }

/-- `ErosionModel.run_for` as a state transformer: it performs the calls
`run_one_step(dt_i)` for the timestep sequence `run_for_dts`. -/
def ErosionModel.run_for (dt runtime : ℚ) (s : ModelState) : ModelState :=
  (run_for_dts dt runtime).foldl run_one_step s

/-- `ErosionModel.write_output`: writes one netCDF file tagged with the
current iteration counter and fires the output writers.  For the run-loop
claims only the count of calls matters. -/
def write_output (s : ModelState) : ModelState :=
  { s with outputs := s.outputs + 1 }

/-- Record update performed by `self.iteration += 1` in the run loop. -/
def advance_iteration (s : ModelState) : ModelState :=
  { s with iteration := s.iteration + 1 }

/-- The `while time_now < total_run_duration` loop of `ErosionModel.run`,
with fuel.  Each pass computes
`next_run_pause = min(time_now + output_interval, run_duration)`, calls
`run_for(dt, next_run_pause - time_now)`, writes output and increments the
iteration counter. -/
def runGo (dt oi rd : ℚ) : ℕ → ℚ → ModelState → ModelState
  | 0, _, s => s
  | fuel + 1, time_now, s =>
    if time_now < rd then
      runGo dt oi rd fuel (min (time_now + oi) rd)
        (advance_iteration
          (write_output (ErosionModel.run_for dt (min (time_now + oi) rd - time_now) s)))
    else s

/-- State after the pre-loop part of `ErosionModel.run`: when
`save_first_timestep` is set, iteration `0` output is written first. -/
def initial_state (save_first_timestep : Bool) : ModelState :=
  if save_first_timestep then
    write_output { model_time := 0, outputs := 0, iteration := 0 }
  else { model_time := 0, outputs := 0, iteration := 0 }

/-- `ErosionModel.run()`: optional first-timestep output, `iteration = 1`,
then the output-interval loop from `time_now = self._model_time` up to
`run_duration`. -/
def ErosionModel.run (save_first_timestep : Bool) (dt oi rd : ℚ) : ModelState :=
  runGo dt oi rd (⌈rd / oi⌉₊ + 1)
    (initial_state save_first_timestep).model_time
    { initial_state save_first_timestep with iteration := 1 }

/-! ## BasicSt.calc_runoff_and_discharge

The runoff computation of `BasicSt`
(terrainbento/derived_models/model_100_basicSt.py).  Python floats are
modelled as real numbers, `np.exp` as the real exponential. -/

/-- The runoff returned by `BasicSt.calc_runoff_and_discharge` for rain
rate `self.rain_rate` and infiltration capacity `self.infilt` (discharge
is this value times drainage area, node by node). -/
noncomputable def calc_runoff_and_discharge (rain_rate infilt : ℝ) : ℝ :=
  if 0 < rain_rate ∧ 0 < infilt then
    if rain_rate - infilt * (1 - Real.exp (-rain_rate / infilt)) < 0 then 0
    else rain_rate - infilt * (1 - Real.exp (-rain_rate / infilt))
  else rain_rate

/-! ## ErosionModel construction: input_file / params resolution -/

/-- The opening of `ErosionModel.__init__`: checks that exactly one of
`input_file` and `params` was supplied, raising ValueError otherwise;
`load_params` is the external file reader used when a path is given. -/
def resolve_input_params {P : Type} (load_params : String → P)
    (input_file : Option String) (params : Option P) : Except PyErr P :=
  match input_file, params with
  | none, none =>
    .error (.valueError
      "ErosionModel requires one of input_file or params dictionary but neither were supplied.")
  | some _, some _ =>
    .error (.valueError
      "ErosionModel requires one of input_file or params dictionary but both were supplied.")
  | none, some p => .ok p
  | some f, none => .ok (load_params f)

/-! ## ErosionModel construction: required parameter check -/

/-- One pass of the required-parameter loop of `ErosionModel.__init__` for
key `req`: a missing key raises ValueError naming the key; a present value
is passed to `float()`, whose ValueError is caught and re-raised naming the
key (any other exception, e.g. TypeError, propagates).  The converted
value is discarded; in particular its sign is never examined. -/
def check_required_param (params : List (String × PyVal)) (req : String) :
    Except PyErr Unit :=
  match dictLookup params req with
  | some v =>
    match pyFloat v with
    | .ok _ => .ok ()
    | .error (.valueError _) =>
      .error (.valueError
        ("Required parameter " ++ req ++ " is not compatible with type float."))
    | .error e => .error e
  | none =>
    .error (.valueError ("Required parameter " ++ req ++ " was not provided."))

/-- The loop `for req in ['dt', 'output_interval', 'run_duration']`,
stopping at the first failure. -/
def check_required_params (params : List (String × PyVal)) : Except PyErr Unit :=
  match check_required_param params "dt" with
  | .error e => .error e
  | .ok _ =>
    match check_required_param params "output_interval" with
    | .error e => .error e
    | .ok _ => check_required_param params "run_duration"

/-! ## ErosionModel.setup_boundary_handler -/

def _SUPPORTED_BOUNDARY_HANDLERS : List String :=
  ["NormalFault", "PrecipChanger", "CaptureNodeBaselevelHandler",
   "ClosedNodeBaselevelHandler", "SingleNodeBaselevelHandler"]

/-- The module-level `_HANDLER_METHODS` dictionary mapping each supported
handler name to its class; classes are represented by their names. -/
def _HANDLER_METHODS : List (String × String) :=
  [("NormalFault", "NormalFault"),
   ("PrecipChanger", "PrecipChanger"),
   ("CaptureNodeBaselevelHandler", "CaptureNodeBaselevelHandler"),
   ("ClosedNodeBaselevelHandler", "ClosedNodeBaselevelHandler"),
   ("SingleNodeBaselevelHandler", "SingleNodeBaselevelHandler")]

/-- `ErosionModel.setup_boundary_handler` for a handler requested by name
(the string path; a non-Component argument takes this path).  The code
first evaluates `_HANDLER_METHODS[name]` — a plain dict subscript that
raises KeyError for an unknown name — and only then tests membership in
`_SUPPORTED_BOUNDARY_HANDLERS`, so its ValueError branch (whose message is
built from the supported list) is unreachable for string input.  On
success, the result records the handler class and the parameter dictionary
passed to its constructor: the handler-specific sub-dictionary (with
`length_factor` set) if `name` is a key of `self.params`, otherwise the
full global parameter dictionary. -/
def setup_boundary_handler (params : List (String × PyVal)) (length_factor : ℚ)
    (handler : String) : Except PyErr (String × List (String × PyVal)) :=
  match dictLookup _HANDLER_METHODS handler with
  | none => .error (.keyError handler)
  | some h =>
    if handler ∈ _SUPPORTED_BOUNDARY_HANDLERS then
      match dictLookup params handler with
      | some (.dict sub) =>
        .ok (h, dictInsert sub "length_factor" (.num length_factor))
      | some _ =>
        .error (.typeError "item assignment on non-dict handler parameters")
      | none => .ok (h, params)
    else
      .error (.valueError (String.intercalate
        "Only supported boundary condition handlers are permitted. These include:\n"
        _SUPPORTED_BOUNDARY_HANDLERS))

def c7_params : List (String × PyVal) :=
  [("PrecipChanger", .dict [("daily_rainfall__mean_intensity", .num 2)]),
   ("dt", .num 1)]

/-! ## ErosionModel.check_slurm_walltime -/

/-- `ErosionModel.check_slurm_walltime`, with the interactions with the
operating system made explicit: `slurm_job_id` is the value of
`os.environ['SLURM_JOB_ID']` (`none` raises KeyError),
`squeue_available` records whether `subprocess.Popen(['squeue', ...])`
can find the executable (otherwise it raises FileNotFoundError), and
`remaining_time`/`cut_off_time` are the parsed scheduler answer and the
configured cutoff.  The `try` block catches exactly `KeyError`; when the
query succeeds and `opt_save` is set with too little time left, the model
is pickled and `sys.exit()` raises SystemExit (uncaught here). -/
def check_slurm_walltime (check_walltime opt_save : Bool)
    (slurm_job_id : Option String) (squeue_available : Bool)
    (remaining_time cut_off_time : ℚ) : Except PyErr Unit :=
  if check_walltime then
    match
      (match slurm_job_id with
        | none => Except.error (PyErr.keyError "SLURM_JOB_ID")
        | some _ =>
          if squeue_available then
            if opt_save ∧ remaining_time < cut_off_time then
              Except.error PyErr.systemExit
            else Except.ok ()
          else Except.error (PyErr.fileNotFoundError "squeue")) with
    | .error (.keyError _) => .ok ()
    | r => r
  else .ok ()

/-! ## ErosionModel output writers -/

/-- An argument passed to `setup_output_writer`: either a class or a plain
function, identified by its `__name__`. -/
inductive Writer where
  | cls (name : String)
  | fn (name : String)

def Writer.name : Writer → String
  | .cls n => n
  | .fn n => n

/-- Python `isinstance(writer, object)`: every Python value — classes and
functions alike — is an instance of `object`, so this is identically
true. -/
def isinstance_object (_writer : Writer) : Bool := true

/-- The writer bookkeeping of an `ErosionModel`:
`self.output_writers = {'class': {...}, 'function': [...]}`, plus a log of
every time a registered writer was called with the model as argument (for
a class that call is the instantiation; for a plain function it runs the
function's body). -/
structure OutputWriters where
  class_entries : List (String × String)
  function_entries : List String
  calls : List String

/-- The value of the Python expression `writer(self)`. -/
def call_with_model (w : Writer) : String := w.name

/-- `ErosionModel.setup_output_writer`.  Because
`isinstance(writer, object)` is always true, every writer — including a
plain function — takes the class branch: it is called immediately with the
model and the result is stored under `output_writers['class'][name]`; the
function branch is dead code. -/
def setup_output_writer (ow : OutputWriters) (writer : Writer) : OutputWriters :=
  if isinstance_object writer then
    { ow with
        class_entries := dictInsert ow.class_entries writer.name (call_with_model writer),
        calls := ow.calls ++ [writer.name] }
  else
    { ow with function_entries := ow.function_entries ++ [writer.name] }

/-- The loop `for name in self.output_writers['class']` of
`run_output_writers`: each pass evaluates `self.output_writers[name]` — a
subscript of the OUTER two-key dictionary `{'class': ..., 'function': ...}`
— so any writer name other than those two literal keys raises KeyError
(and those two would put a dict or list where `.run_one_step()` is then
called, raising AttributeError).  Only with no class entries at all does
control reach the function loop, which calls each stored function with
the model. -/
def run_output_writers_go (ow : OutputWriters) :
    List (String × String) → Except PyErr OutputWriters
  | [] => .ok { ow with calls := ow.calls ++ ow.function_entries }
  | (name, _) :: _ =>
    if name = "class" ∨ name = "function" then
      .error (.attributeError "object has no attribute run_one_step")
    else .error (.keyError name)

/-- `ErosionModel.run_output_writers`, fired at every output checkpoint. -/
def run_output_writers (ow : OutputWriters) : Except PyErr OutputWriters :=
  run_output_writers_go ow ow.class_entries

/-! ## Synthetic grid sizing parameters -/

/-- The `try` block shared by `setup_raster_grid` and
`setup_hexagonal_grid`: the three sizing parameters are read sequentially
and the first missing key aborts the whole block with KeyError. -/
def grid_shape_from_params (params : List (String × PyVal)) :
    Option (PyVal × PyVal × PyVal) := do
  let nr ← dictLookup params "number_of_node_rows"
  let nc ← dictLookup params "number_of_node_columns"
  let dx ← dictLookup params "node_spacing"
  pure (nr, nc, dx)

/-- `(nr, nc, dx)` used by `setup_raster_grid`: the `except KeyError`
branch replaces all three with the raster defaults `(4, 5, 1.0)`. -/
def setup_raster_grid_shape (params : List (String × PyVal)) :
    PyVal × PyVal × PyVal :=
  match grid_shape_from_params params with
  | some t => t
  | none => (.num 4, .num 5, .num 1)

/-- `(nr, nc, dx)` used by `setup_hexagonal_grid`: the `except KeyError`
branch replaces all three with the hexagonal defaults `(8, 5, 10.0)`. -/
def setup_hexagonal_grid_shape (params : List (String × PyVal)) :
    PyVal × PyVal × PyVal :=
  match grid_shape_from_params params with
  | some t => t
  | none => (.num 8, .num 5, .num 10)

/-- With `n + 1` units of fuel and `n` pinned down by
`n * dt < runtime - elapsed ≤ (n + 1) * dt` (or `n = 0` with
`runtime - elapsed ≤ dt`), the loop performs exactly `n` full steps of
size `dt` followed by one truncated step. -/
lemma runForGo_replicate (dt runtime : ℚ) :
    ∀ (n fuel : ℕ) (elapsed : ℚ), n + 1 ≤ fuel →
      runtime - elapsed ≤ ((n : ℚ) + 1) * dt →
      (n = 0 ∨ (n : ℚ) * dt < runtime - elapsed) →
      runForGo dt runtime fuel elapsed =
        List.replicate n dt ++ [runtime - elapsed - (n : ℚ) * dt] := by
  intro n
  induction n with
  | zero =>
    intro fuel elapsed hfuel hub _
    cases fuel with
    | zero => omega
    | succ f =>
      have hcond : runtime ≤ elapsed + dt := by push_cast at hub; linarith
      simp only [runForGo, if_pos hcond]
      simp
  | succ n ih =>
    intro fuel elapsed hfuel hub hlb
    cases fuel with
    | zero => omega
    | succ f =>
      have hstrict : ((n : ℚ) + 1) * dt < runtime - elapsed := by
        rcases hlb with h | h
        · exact absurd h (Nat.succ_ne_zero n)
        · push_cast at h; linarith
      push_cast at hub
      have hdtpos : 0 < dt := by nlinarith
      have hnn : (0 : ℚ) ≤ (n : ℚ) * dt :=
        mul_nonneg (by exact_mod_cast Nat.zero_le n) hdtpos.le
      have hcond : ¬ runtime ≤ elapsed + dt := by
        push_neg
        nlinarith
      simp only [runForGo, if_neg hcond]
      rw [ih f (elapsed + dt) (by omega)
            (by linarith)
            (by
              rcases Nat.eq_zero_or_pos n with h0 | _
              · exact Or.inl h0
              · exact Or.inr (by linarith))]
      rw [List.replicate_succ, List.cons_append]
      have harith : runtime - (elapsed + dt) - (n : ℚ) * dt =
          runtime - elapsed - ((n : ℚ) + 1) * dt := by ring
      rw [harith]
      norm_cast

/-- For positive `dt` and `runtime`, `run_for` performs
`⌈runtime / dt⌉₊` steps: `⌈runtime / dt⌉₊ - 1` full steps of size `dt`
and a final truncated one. -/
lemma run_for_dts_spec (dt runtime : ℚ) (hdt : 0 < dt) (hrt : 0 < runtime) :
    ∃ n : ℕ, ⌈runtime / dt⌉₊ = n + 1 ∧
      run_for_dts dt runtime = List.replicate n dt ++ [runtime - (n : ℚ) * dt] := by
  have hpos : 0 < runtime / dt := div_pos hrt hdt
  have hN : 1 ≤ ⌈runtime / dt⌉₊ := Nat.one_le_ceil_iff.mpr hpos
  refine ⟨⌈runtime / dt⌉₊ - 1, by omega, ?_⟩
  have hsucc : (⌈runtime / dt⌉₊ - 1) + 1 = ⌈runtime / dt⌉₊ := by omega
  have hub : runtime - 0 ≤ (((⌈runtime / dt⌉₊ - 1 : ℕ) : ℚ) + 1) * dt := by
    have h1 : runtime / dt ≤ ((⌈runtime / dt⌉₊ : ℚ)) := Nat.le_ceil _
    rw [div_le_iff₀ hdt] at h1
    have h2 : ((⌈runtime / dt⌉₊ : ℚ)) = ((⌈runtime / dt⌉₊ - 1 : ℕ) : ℚ) + 1 := by
      exact_mod_cast (congrArg (Nat.cast : ℕ → ℚ) hsucc).symm
    rw [sub_zero]
    calc runtime ≤ ((⌈runtime / dt⌉₊ : ℚ)) * dt := h1
      _ = (((⌈runtime / dt⌉₊ - 1 : ℕ) : ℚ) + 1) * dt := by rw [h2]
  have hlb : (⌈runtime / dt⌉₊ - 1 : ℕ) = 0 ∨
      ((⌈runtime / dt⌉₊ - 1 : ℕ) : ℚ) * dt < runtime - 0 := by
    rcases Nat.eq_zero_or_pos (⌈runtime / dt⌉₊ - 1) with h | h
    · exact Or.inl h
    · right
      have hlt : ((⌈runtime / dt⌉₊ - 1 : ℕ) : ℚ) < runtime / dt :=
        Nat.lt_ceil.mp (by omega)
      rw [lt_div_iff₀ hdt] at hlt
      rw [sub_zero]
      exact hlt
  have hmain := runForGo_replicate dt runtime (⌈runtime / dt⌉₊ - 1)
      (⌈runtime / dt⌉₊ + 1) 0 (by omega) hub hlb
  unfold run_for_dts
  rw [hmain]
  simp

/-- C1: for `dt > 0` and a positive `runtime` that is not an exact multiple
of `dt`, `ErosionModel.run_for(dt, runtime)` calls `run_one_step` exactly
`⌈runtime / dt⌉₊` times, the cumulative elapsed time equals `runtime`
exactly, every call but the last receives timestep `dt`, and the final call
receives `runtime` minus the time already elapsed. -/
theorem run_for_ceil_steps_exact_duration (dt runtime : ℚ) (hdt : 0 < dt)
    (hrt : 0 < runtime) (_hnm : ∀ k : ℕ, runtime ≠ (k : ℚ) * dt) :
    (run_for_dts dt runtime).length = ⌈runtime / dt⌉₊ ∧
    (run_for_dts dt runtime).sum = runtime ∧
    (∀ x ∈ (run_for_dts dt runtime).dropLast, x = dt) ∧
    (run_for_dts dt runtime).getLast? =
      some (runtime - (((run_for_dts dt runtime).length - 1 : ℕ) : ℚ) * dt) := by
  obtain ⟨n, hN, hEq⟩ := run_for_dts_spec dt runtime hdt hrt
  rw [hEq]
  refine ⟨?_, ?_, ?_, ?_⟩
  · simp [hN]
  · simp [List.sum_replicate, smul_eq_mul]
  · intro x hx
    rw [List.dropLast_concat] at hx
    exact List.eq_of_mem_replicate hx
  · rw [List.getLast?_concat]
    simp

/-- Witness for C1 at `dt = 1`, `runtime = 5/2`: the hypotheses hold and
the loop takes three steps `[1, 1, 1/2]` summing to `5/2`. -/
theorem run_for_ceil_steps_exact_duration_witness :
    ((0 : ℚ) < 1 ∧ (0 : ℚ) < 5 / 2 ∧ (∀ k : ℕ, (5 / 2 : ℚ) ≠ (k : ℚ) * 1)) ∧
    ((run_for_dts 1 (5 / 2)).length = ⌈(5 / 2 : ℚ) / 1⌉₊ ∧
     (run_for_dts 1 (5 / 2)).sum = 5 / 2 ∧
     (∀ x ∈ (run_for_dts 1 (5 / 2)).dropLast, x = 1) ∧
     (run_for_dts 1 (5 / 2)).getLast? =
       some (5 / 2 - (((run_for_dts 1 (5 / 2)).length - 1 : ℕ) : ℚ) * 1)) := by
  have hnm : ∀ k : ℕ, (5 / 2 : ℚ) ≠ (k : ℚ) * 1 := by
    intro k hk
    rw [mul_one] at hk
    have h5 : (5 : ℚ) = 2 * (k : ℚ) := by
      field_simp at hk
      linarith
    have h5n : (5 : ℤ) = 2 * (k : ℤ) := by exact_mod_cast h5
    omega
  exact ⟨⟨by norm_num, by norm_num, hnm⟩,
    run_for_ceil_steps_exact_duration 1 (5 / 2) (by norm_num) (by norm_num) hnm⟩

/-- C9: with `dt > 0`, `run_for` always calls `run_one_step` at least once;
when `runtime ≤ dt` the single call receives timestep `runtime`, and in
particular `run_for(dt, 0)` performs exactly one call with timestep `0`. -/
theorem run_for_at_least_one_step (dt runtime : ℚ) (hdt : 0 < dt)
    (hle : runtime ≤ dt) :
    run_for_dts dt runtime = [runtime] ∧
    run_for_dts dt 0 = [0] ∧
    ∀ rt : ℚ, 1 ≤ (run_for_dts dt rt).length := by
  have base : ∀ rt : ℚ, rt ≤ dt → run_for_dts dt rt = [rt] := by
    intro rt h
    unfold run_for_dts
    have hcond : rt ≤ 0 + dt := by linarith
    simp only [runForGo, if_pos hcond]
    simp
  refine ⟨base runtime hle, base 0 hdt.le, ?_⟩
  intro rt
  unfold run_for_dts
  simp only [runForGo]
  split
  · simp
  · simp

/-- Witness for C9 at `dt = 2`, `runtime = 1`. -/
theorem run_for_at_least_one_step_witness :
    ((0 : ℚ) < 2 ∧ (1 : ℚ) ≤ 2) ∧
    (run_for_dts 2 1 = [1] ∧
     run_for_dts 2 0 = [0] ∧
     ∀ rt : ℚ, 1 ≤ (run_for_dts 2 rt).length) :=
  ⟨⟨by norm_num, by norm_num⟩,
    run_for_at_least_one_step 2 1 (by norm_num) (by norm_num)⟩

lemma foldl_run_one_step :
    ∀ (L : List ℚ) (s : ModelState),
      L.foldl run_one_step s = { s with model_time := s.model_time + L.sum } := by
  intro L
  induction L with
  | nil => intro s; simp [run_one_step]
  | cons a L ih =>
    intro s
    simp [List.foldl_cons, run_one_step, ih, add_assoc]

lemma run_for_dts_sum (dt runtime : ℚ) (hdt : 0 < dt) (hrt : 0 < runtime) :
    (run_for_dts dt runtime).sum = runtime := by
  obtain ⟨n, _, hEq⟩ := run_for_dts_spec dt runtime hdt hrt
  rw [hEq]
  simp [List.sum_replicate, smul_eq_mul]

/-- `run_for(dt, runtime)` advances the clock by exactly `runtime` and
touches nothing else. -/
lemma run_for_state (dt runtime : ℚ) (hdt : 0 < dt) (hrt : 0 < runtime)
    (s : ModelState) :
    ErosionModel.run_for dt runtime s =
      { s with model_time := s.model_time + runtime } := by
  unfold ErosionModel.run_for
  rw [foldl_run_one_step, run_for_dts_sum dt runtime hdt hrt]

/-- The run loop with `k` iterations left (pinned by
`(k-1) * oi < rd - time_now ≤ k * oi`) writes output `k` times, increments
the iteration counter `k` times, and advances the clock to exactly `rd`. -/
lemma runGo_spec (dt oi rd : ℚ) (hdt : 0 < dt) (hoi : 0 < oi) :
    ∀ (k fuel : ℕ) (time_now : ℚ) (s : ModelState), k ≤ fuel →
      time_now ≤ rd →
      rd - time_now ≤ (k : ℚ) * oi →
      (∀ j : ℕ, j + 1 = k → (j : ℚ) * oi < rd - time_now) →
      runGo dt oi rd fuel time_now s =
        { model_time := s.model_time + (rd - time_now),
          outputs := s.outputs + k,
          iteration := s.iteration + k } := by
  intro k
  induction k with
  | zero =>
    intro fuel time_now s _ hle h1 _
    have h0 : rd - time_now = 0 := le_antisymm (by simpa using h1) (by linarith)
    have hng : ¬ time_now < rd := by push_neg; linarith
    cases fuel with
    | zero => simp [runGo, h0]
    | succ f => simp [runGo, if_neg hng, h0]
  | succ j ih =>
    intro fuel time_now s hfuel hle h1 hlo
    have hj : (j : ℚ) * oi < rd - time_now := hlo j rfl
    have hjnn : (0 : ℚ) ≤ (j : ℚ) * oi :=
      mul_nonneg (by exact_mod_cast Nat.zero_le j) hoi.le
    have hguard : time_now < rd := by linarith
    push_cast at h1
    cases fuel with
    | zero => omega
    | succ f =>
      have hnextpos : 0 < min (time_now + oi) rd - time_now := by
        have : time_now < min (time_now + oi) rd := lt_min (by linarith) hguard
        linarith
      simp only [runGo, if_pos hguard]
      rw [run_for_state dt _ hdt hnextpos]
      rcases le_or_lt (time_now + oi) rd with hcase | hcase
      · have hmin : min (time_now + oi) rd = time_now + oi := min_eq_left hcase
        rw [hmin]
        rw [ih f (time_now + oi)
              (advance_iteration (write_output
                { s with model_time := s.model_time + (time_now + oi - time_now) }))
              (by omega) hcase (by linarith)
              (by
                intro i hi
                have hinst := hlo (i + 1) (by omega)
                push_cast at hinst
                linarith)]
        simp only [advance_iteration, write_output, ModelState.mk.injEq]
        refine ⟨by ring, by omega, by omega⟩
      · have hj0 : j = 0 := by
          by_contra hne
          have h1j : (1 : ℚ) ≤ (j : ℚ) := by
            exact_mod_cast Nat.one_le_iff_ne_zero.mpr hne
          have : oi ≤ (j : ℚ) * oi := le_mul_of_one_le_left hoi.le h1j
          linarith
        subst hj0
        have hmin : min (time_now + oi) rd = rd := min_eq_right hcase.le
        rw [hmin]
        rw [ih f rd
              (advance_iteration (write_output
                { s with model_time := s.model_time + (rd - time_now) }))
              (by omega) le_rfl (by simp)
              (by intro i hi; omega)]
        simp [advance_iteration, write_output]

/-- C2: `run()` with `output_interval = 2`, `run_duration = 200`, `dt = 1`
writes output exactly 100 times (101 with `save_first_timestep`) and ends
with the simulation clock at exactly 200. -/
theorem run_output_count_and_final_time :
    (ErosionModel.run false 1 2 200).outputs = 100 ∧
    (ErosionModel.run true 1 2 200).outputs = 101 ∧
    (ErosionModel.run false 1 2 200).model_time = 200 ∧
    (ErosionModel.run true 1 2 200).model_time = 200 := by
  have hceil : ⌈(200 : ℚ) / 2⌉₊ = 100 := by
    rw [show ((200 : ℚ) / 2) = ((100 : ℕ) : ℚ) by norm_num, Nat.ceil_natCast]
  have hlo : ∀ j : ℕ, j + 1 = 100 → (j : ℚ) * 2 < 200 - 0 := by
    intro j hj
    have : j = 99 := by omega
    subst this
    norm_num
  have h1 : (200 : ℚ) - 0 ≤ (100 : ℕ) * 2 := by push_cast; norm_num
  have hfalse := runGo_spec 1 2 200 (by norm_num) (by norm_num) 100
      (⌈(200 : ℚ) / 2⌉₊ + 1) 0 { model_time := 0, outputs := 0, iteration := 1 }
      (by rw [hceil]; omega) (by norm_num) h1 hlo
  have htrue := runGo_spec 1 2 200 (by norm_num) (by norm_num) 100
      (⌈(200 : ℚ) / 2⌉₊ + 1) 0 { model_time := 0, outputs := 1, iteration := 1 }
      (by rw [hceil]; omega) (by norm_num) h1 hlo
  have hrf : ErosionModel.run false 1 2 200 =
      runGo 1 2 200 (⌈(200 : ℚ) / 2⌉₊ + 1) 0
        { model_time := 0, outputs := 0, iteration := 1 } := rfl
  have hrt : ErosionModel.run true 1 2 200 =
      runGo 1 2 200 (⌈(200 : ℚ) / 2⌉₊ + 1) 0
        { model_time := 0, outputs := 1, iteration := 1 } := rfl
  rw [hrf, hrt, hfalse, htrue]
  norm_num

/-- In the positive-positive branch the clamp is never needed: the raw
expression is already nonnegative, because `1 - exp (-x) ≤ x`. -/
lemma calc_runoff_pos_case (P I : ℝ) (hP : 0 < P) (hI : 0 < I) :
    calc_runoff_and_discharge P I = P - I * (1 - Real.exp (-P / I)) ∧
    0 ≤ P - I * (1 - Real.exp (-P / I)) := by
  have key : 1 - Real.exp (-(P / I)) ≤ P / I := by
    have h := Real.add_one_le_exp (-(P / I))
    linarith
  have hle : I * (1 - Real.exp (-(P / I))) ≤ I * (P / I) :=
    mul_le_mul_of_nonneg_left key hI.le
  have hcancel : I * (P / I) = P := by field_simp
  have hnd : -P / I = -(P / I) := neg_div I P
  have hnneg : 0 ≤ P - I * (1 - Real.exp (-P / I)) := by
    rw [hnd]
    linarith
  refine ⟨?_, hnneg⟩
  unfold calc_runoff_and_discharge
  rw [if_pos ⟨hP, hI⟩, if_neg (not_lt.mpr hnneg)]

/-- C4: for `P ≥ 0` and `I ≥ 0` the runoff equals
`P - I * (1 - exp (-P / I))` when both are positive (the clamp to zero
never fires there), equals `P` otherwise, and always satisfies
`0 ≤ R ≤ P`; in particular `runoff(0, I) = 0` and `runoff(P, 0) = P`. -/
theorem calc_runoff_bounds (P I : ℝ) (hP : 0 ≤ P) (hI : 0 ≤ I) :
    (0 < P → 0 < I →
      calc_runoff_and_discharge P I = P - I * (1 - Real.exp (-P / I))) ∧
    0 ≤ calc_runoff_and_discharge P I ∧
    calc_runoff_and_discharge P I ≤ P ∧
    calc_runoff_and_discharge 0 I = 0 ∧
    (0 < P → calc_runoff_and_discharge P 0 = P) := by
  have hzero : calc_runoff_and_discharge 0 I = 0 := by
    unfold calc_runoff_and_discharge
    rw [if_neg (fun h => lt_irrefl 0 h.1)]
  have hinfz : calc_runoff_and_discharge P 0 = P := by
    unfold calc_runoff_and_discharge
    rw [if_neg (fun h => lt_irrefl 0 h.2)]
  refine ⟨fun hp hi => (calc_runoff_pos_case P I hp hi).1, ?_, ?_, hzero,
    fun _ => hinfz⟩
  · by_cases hc : 0 < P ∧ 0 < I
    · obtain ⟨heq, hn⟩ := calc_runoff_pos_case P I hc.1 hc.2
      rw [heq]
      exact hn
    · unfold calc_runoff_and_discharge
      rw [if_neg hc]
      exact hP
  · by_cases hc : 0 < P ∧ 0 < I
    · obtain ⟨heq, _⟩ := calc_runoff_pos_case P I hc.1 hc.2
      rw [heq]
      have hexple : Real.exp (-P / I) ≤ 1 := by
        rw [Real.exp_le_one_iff]
        rw [neg_div]
        exact neg_nonpos.mpr (div_nonneg hP hI)
      nlinarith
    · unfold calc_runoff_and_discharge
      rw [if_neg hc]

/-- Witness for C4 at the spec's example `P = 1/2`, `I = 1/3`. -/
theorem calc_runoff_bounds_witness :
    ((0 : ℝ) ≤ 1 / 2 ∧ (0 : ℝ) ≤ 1 / 3) ∧
    (((0 : ℝ) < 1 / 2 → (0 : ℝ) < 1 / 3 →
       calc_runoff_and_discharge (1 / 2) (1 / 3) =
         1 / 2 - 1 / 3 * (1 - Real.exp (-(1 / 2) / (1 / 3)))) ∧
     0 ≤ calc_runoff_and_discharge (1 / 2) (1 / 3) ∧
     calc_runoff_and_discharge (1 / 2) (1 / 3) ≤ 1 / 2 ∧
     calc_runoff_and_discharge 0 (1 / 3) = 0 ∧
     ((0 : ℝ) < 1 / 2 → calc_runoff_and_discharge (1 / 2) 0 = 1 / 2)) :=
  ⟨⟨by norm_num, by norm_num⟩,
    calc_runoff_bounds (1 / 2) (1 / 3) (by norm_num) (by norm_num)⟩

/-- C5: construction gets past the input check exactly when one and only
one of `input_file` and `params` is given; both or neither raise a
ValueError. -/
theorem construction_requires_exactly_one {P : Type} (load_params : String → P)
    (input_file : Option String) (params : Option P) :
    ((∃ p, resolve_input_params load_params input_file params = .ok p) ↔
      input_file.isSome = params.isNone) ∧
    (input_file = none → params = none →
      resolve_input_params load_params input_file params =
        .error (.valueError
          "ErosionModel requires one of input_file or params dictionary but neither were supplied.")) ∧
    (∀ f p, input_file = some f → params = some p →
      resolve_input_params load_params input_file params =
        .error (.valueError
          "ErosionModel requires one of input_file or params dictionary but both were supplied.")) := by
  cases input_file <;> cases params <;> simp [resolve_input_params]

/-- Witness for C5: neither argument supplied raises the ValueError. -/
theorem construction_requires_exactly_one_witness :
    resolve_input_params (fun _ => ([] : List (String × PyVal))) none none =
      .error (.valueError
        "ErosionModel requires one of input_file or params dictionary but neither were supplied.") :=
  (construction_requires_exactly_one
    (fun _ => ([] : List (String × PyVal))) none none).2.1 rfl rfl

/-- Counterexample to C6 as stated: the check accepts `dt = -1` and
`output_interval = 0`, which are not positive, so construction does not
fail on non-positive required parameters. -/
theorem required_params_check_passes_nonpositive :
    check_required_params
      [("dt", .num (-1)), ("output_interval", .num 0), ("run_duration", .num 1)] =
      .ok () := rfl

/-- C6 (amended): each of `dt`, `output_interval`, `run_duration` must be
present and convertible to a float — positivity is not checked; a missing
key or a value on which `float()` raises ValueError fails with a
ValueError naming the offending key. -/
theorem required_params_check_spec (params : List (String × PyVal)) :
    (check_required_params params = .ok () ↔
      ∀ req ∈ ["dt", "output_interval", "run_duration"],
        check_required_param params req = .ok ()) ∧
    (∀ req : String, dictLookup params req = none →
      check_required_param params req =
        .error (.valueError ("Required parameter " ++ req ++ " was not provided."))) ∧
    (∀ req v m, dictLookup params req = some v →
      pyFloat v = .error (.valueError m) →
      check_required_param params req =
        .error (.valueError
          ("Required parameter " ++ req ++ " is not compatible with type float."))) ∧
    (∀ req v q, dictLookup params req = some v → pyFloat v = .ok q →
      check_required_param params req = .ok ()) := by
  refine ⟨?_, ?_, ?_, ?_⟩
  · cases h1 : check_required_param params "dt" <;>
      cases h2 : check_required_param params "output_interval" <;>
        cases h3 : check_required_param params "run_duration" <;>
          simp [check_required_params, h1, h2, h3]
  · intro req h
    simp [check_required_param, h]
  · intro req v m hl hf
    simp [check_required_param, hl, hf]
  · intro req v q hl hf
    simp [check_required_param, hl, hf]

/-- Witness for the amended C6: a missing `dt` is reported by name. -/
theorem required_params_check_spec_witness :
    check_required_param [] "dt" =
      .error (.valueError ("Required parameter " ++ "dt" ++ " was not provided.")) :=
  (required_params_check_spec []).2.1 "dt" rfl

/-- C7 evaluated: an unsupported name ("Bogus") raises KeyError from the
`_HANDLER_METHODS` subscript — not the ValueError listing the supported
set; a supported name with a handler-specific parameter block receives
that block (plus `length_factor`), and one without receives the full
global parameter set. -/
theorem boundary_handler_registration_eval :
    setup_boundary_handler c7_params (1 / 2) "Bogus" =
      .error (.keyError "Bogus") ∧
    setup_boundary_handler c7_params (1 / 2) "PrecipChanger" =
      .ok ("PrecipChanger",
        [("daily_rainfall__mean_intensity", .num 2),
         ("length_factor", .num (1 / 2))]) ∧
    setup_boundary_handler c7_params (1 / 2) "NormalFault" =
      .ok ("NormalFault", c7_params) :=
  ⟨rfl, rfl, rfl⟩

/-- Counterexample to C8 as stated: with the wall-time check enabled and
the job-id variable present but the `squeue` executable absent, the check
raises FileNotFoundError instead of returning normally. -/
theorem walltime_check_raises_without_squeue :
    check_slurm_walltime true false (some "12345") false 0 0 =
      .error (.fileNotFoundError "squeue") ∧
    check_slurm_walltime true false (some "12345") false 0 0 ≠
      Except.ok () := by
  have h : check_slurm_walltime true false (some "12345") false 0 0 =
      .error (.fileNotFoundError "squeue") := rfl
  refine ⟨h, ?_⟩
  rw [h]
  simp

/-- C8 (amended): when the wall-time check is enabled, the absence of the
job-id environment variable (KeyError) is silently swallowed and the check
is a no-op, but the absence of the `squeue` executable raises an uncaught
FileNotFoundError. -/
theorem walltime_scheduler_failure_handling (opt_save squeue_available : Bool)
    (jid : String) (remaining_time cut_off_time : ℚ) :
    check_slurm_walltime true opt_save none squeue_available
        remaining_time cut_off_time = .ok () ∧
    check_slurm_walltime true opt_save (some jid) false
        remaining_time cut_off_time = .error (.fileNotFoundError "squeue") :=
  ⟨rfl, rfl⟩

/-- C3 evaluated at the failing inputs: registering a plain function
`myfunc` calls it immediately (its name enters the call log) and stores
the result under the class dictionary, leaving the function list empty —
the function is not saved for later checkpoints; and firing the writers
with a registered class writer `MyWriter` raises `KeyError('MyWriter')`
instead of invoking its `run_one_step`. -/
theorem output_writer_registration_eval :
    (setup_output_writer ⟨[], [], []⟩ (.fn "myfunc")).calls = ["myfunc"] ∧
    (setup_output_writer ⟨[], [], []⟩ (.fn "myfunc")).class_entries =
      [("myfunc", "myfunc")] ∧
    (setup_output_writer ⟨[], [], []⟩ (.fn "myfunc")).function_entries = [] ∧
    run_output_writers (setup_output_writer ⟨[], [], []⟩ (.cls "MyWriter")) =
      .error (.keyError "MyWriter") :=
  ⟨rfl, rfl, rfl, rfl⟩

/-- C10: the three sizing parameters are all-or-nothing — if any one of
them is missing, both grid constructors use their built-in defaults for
all three, silently discarding any that were supplied; only when all
three are present are the supplied values used. -/
theorem grid_shape_all_or_nothing (params : List (String × PyVal)) :
    ((dictLookup params "number_of_node_rows" = none ∨
      dictLookup params "number_of_node_columns" = none ∨
      dictLookup params "node_spacing" = none) →
      setup_raster_grid_shape params = (.num 4, .num 5, .num 1) ∧
      setup_hexagonal_grid_shape params = (.num 8, .num 5, .num 10)) ∧
    (∀ nr nc dx,
      dictLookup params "number_of_node_rows" = some nr →
      dictLookup params "number_of_node_columns" = some nc →
      dictLookup params "node_spacing" = some dx →
      setup_raster_grid_shape params = (nr, nc, dx) ∧
      setup_hexagonal_grid_shape params = (nr, nc, dx)) := by
  constructor
  · intro h
    have hnone : grid_shape_from_params params = none := by
      unfold grid_shape_from_params
      cases hnr : dictLookup params "number_of_node_rows" <;>
        cases hnc : dictLookup params "number_of_node_columns" <;>
          cases hdx : dictLookup params "node_spacing" <;>
            simp_all
    simp [setup_raster_grid_shape, setup_hexagonal_grid_shape, hnone]
  · intro nr nc dx h1 h2 h3
    have hsome : grid_shape_from_params params = some (nr, nc, dx) := by
      unfold grid_shape_from_params
      rw [h1, h2, h3]
      rfl
    simp [setup_raster_grid_shape, setup_hexagonal_grid_shape, hsome]

/-- Witness for C10: supplying only `number_of_node_rows = 6` yields the
full defaults on both grid kinds; the supplied value is discarded. -/
theorem grid_shape_all_or_nothing_witness :
    setup_raster_grid_shape [("number_of_node_rows", .num 6)] =
      (.num 4, .num 5, .num 1) ∧
    setup_hexagonal_grid_shape [("number_of_node_rows", .num 6)] =
      (.num 8, .num 5, .num 10) :=
  (grid_shape_all_or_nothing [("number_of_node_rows", .num 6)]).1
    (Or.inr (Or.inl rfl))

end Terrainbento
